import Mathlib

/-!
Verification development for the credential-resolution and expiring-cache
core of the linear-cli repository.

The auth module (internal/auth/auth.go) is embedded as pure Lean functions:
the process environment is a record of the three consulted variables (Go
os.Getenv returns the empty string for an unset variable), the SecureStore
(keyring) is a record holding, for each named secret, the pair that its
getter would return (value and optional error, mirroring the Go
convention of returning a value together with an error), and the network
token exchange is an oracle function passed in explicitly.  Every effectful
step (storage read, storage write, token-exchange request) is recorded in
an explicit effect log so that claims about "no network calls" and "no
storage reads" are statements about the log.  Times are integers counting
seconds; Go time.Duration constants are scaled accordingly.

The cache module (internal/cache/cache.go) is embedded with an explicit
file-system map from paths to file states (absent, unreadable, corrupt
bytes, or a well-formed serialized entry), with the current time passed
explicitly where the Go code calls time.Now().
-/

namespace Auth

/-- Storage errors as seen through the keyring getters: the auth code only
distinguishes nil from non-nil, but we keep the not-found case separate so
that claims about non-not-found errors can be stated. -/
inductive SErr
  | notFound
  | other (msg : String)
deriving DecidableEq, Repr

/-- TokenInfo mirrors the Go struct of the same name (expiry times as
integer seconds). -/
structure TokenInfo where
  accessToken : String
  tokenType : String
  expiresIn : Int
  expiresAt : Int
  scope : String
deriving DecidableEq, Repr

/-- The three environment variables consulted by the auth manager; an unset
variable reads as the empty string, as with os.Getenv. -/
structure Env where
  linearApiKey : String
  linearClientId : String
  linearClientSecret : String
deriving DecidableEq, Repr

/-- The SecureStore as seen through its getters: each slot holds the pair
(value, error) that the corresponding keyring getter returns.
setTokenInfoFails models a failing SetTokenInfo write. -/
structure Store where
  apiKey : String × Option SErr
  tokenInfo : Option TokenInfo × Option SErr
  clientSecret : String × Option SErr
  clientId : String × Option SErr
  setTokenInfoFails : Bool
deriving DecidableEq, Repr

/-- AuthMethod mirrors the Go string enum. -/
inductive AuthMethod
  | none
  | api_key
  | client_credentials
deriving DecidableEq, Repr

/-- Errors returned by GetToken, following the three distinct error paths
of the Go code. -/
inductive AuthErr
  | clientCredsFailed (e : String)
  | refreshFailed (e : String)
  | notAuthenticated
deriving DecidableEq, Repr

/-- A successful token-exchange response body, before the local expiry
computation. -/
structure TokenResp where
  accessToken : String
  tokenType : String
  expiresIn : Int
  scope : String
deriving DecidableEq, Repr

/-- The token-exchange network round trip, as an oracle from the submitted
client id and client secret to the outcome. -/
abbrev Exchange := String → String → Except String TokenResp

/-- Effects performed during resolution: keyring reads, keyring writes and
token-exchange network requests. -/
inductive Eff
  | readApiKey
  | readTokenInfo
  | readClientSecret
  | readClientId
  | exchange (clientID clientSecret : String)
  | setTokenInfo (t : TokenInfo)
deriving DecidableEq, Repr

/-- TokenExpiryBuffer is 5 minutes, in seconds. -/
def TokenExpiryBuffer : Int := 5 * 60

/-- DefaultClientID from the Go constant block. -/
def DefaultClientID : String := "984973f7762db2dc5dd3c939e3f5139c"

/-- Storage.SetTokenInfo: succeeds by overwriting the token slot, or fails
leaving the store unchanged. -/
def setTokenInfo (st : Store) (t : TokenInfo) : Store :=
  if st.setTokenInfoFails then st else { st with tokenInfo := (some t, Option.none) }

/-- ExpiresAt computation performed after a successful exchange:
expiresAt is now plus expires_in seconds (auth.go line 258). -/
def tokenOf (now : Int) (r : TokenResp) : TokenInfo :=
  { accessToken := r.accessToken, tokenType := r.tokenType,
    expiresIn := r.expiresIn, expiresAt := now + r.expiresIn, scope := r.scope }

/-- fetchClientCredentialsToken: one exchange request; on success the token
is stored best-effort (a failed SetTokenInfo only logs a warning) and the
access token returned; on failure the error is returned. -/
def fetchClientCredentialsToken (oracle : Exchange) (now : Int) (st : Store)
    (clientID clientSecret : String) : Except String String × Store × List Eff :=
  match oracle clientID clientSecret with
  | Except.error e => (Except.error e, st, [Eff.exchange clientID clientSecret])
  | Except.ok r =>
      (Except.ok r.accessToken, setTokenInfo st (tokenOf now r),
       [Eff.exchange clientID clientSecret, Eff.setTokenInfo (tokenOf now r)])

/-- GetToken, translated branch for branch from auth.go lines 84-127. -/
def GetToken (env : Env) (st : Store) (oracle : Exchange) (now : Int) :
    Except AuthErr (String × AuthMethod) × Store × List Eff :=
  if env.linearApiKey ≠ "" then
    (Except.ok (env.linearApiKey, AuthMethod.api_key), st, [])
  else if env.linearClientId ≠ "" ∧ env.linearClientSecret ≠ "" then
    match fetchClientCredentialsToken oracle now st env.linearClientId env.linearClientSecret with
    | (Except.error e, st1, log) => (Except.error (AuthErr.clientCredsFailed e), st1, log)
    | (Except.ok tok, st1, log) => (Except.ok (tok, AuthMethod.client_credentials), st1, log)
  else if st.apiKey.2 = Option.none ∧ st.apiKey.1 ≠ "" then
    (Except.ok (st.apiKey.1, AuthMethod.api_key), st, [Eff.readApiKey])
  else
    match st.tokenInfo with
    | (some t, Option.none) =>
      if now + TokenExpiryBuffer < t.expiresAt then
        (Except.ok (t.accessToken, AuthMethod.client_credentials), st,
         [Eff.readApiKey, Eff.readTokenInfo])
      else if st.clientSecret.2 = Option.none ∧ st.clientSecret.1 ≠ "" then
        match fetchClientCredentialsToken oracle now st
            (if st.clientId.1 = "" then DefaultClientID else st.clientId.1)
            st.clientSecret.1 with
        | (Except.error e, st1, log) =>
          (Except.error (AuthErr.refreshFailed e), st1,
           [Eff.readApiKey, Eff.readTokenInfo, Eff.readClientSecret, Eff.readClientId] ++ log)
        | (Except.ok tok, st1, log) =>
          (Except.ok (tok, AuthMethod.client_credentials), st1,
           [Eff.readApiKey, Eff.readTokenInfo, Eff.readClientSecret, Eff.readClientId] ++ log)
      else
        (Except.error AuthErr.notAuthenticated, st,
         [Eff.readApiKey, Eff.readTokenInfo, Eff.readClientSecret])
    | _ =>
      (Except.error AuthErr.notAuthenticated, st, [Eff.readApiKey, Eff.readTokenInfo])

/-- AuthStatus mirrors the Go struct (the User field, never set by
GetStatus itself, is omitted). -/
structure AuthStatus where
  authenticated : Bool
  method : AuthMethod
  source : String
  expiresAt : Option Int
deriving DecidableEq, Repr

/-- GetStatus, translated branch for branch from auth.go lines 130-170. -/
def GetStatus (env : Env) (st : Store) : AuthStatus × Store × List Eff :=
  if env.linearApiKey ≠ "" then
    (⟨true, AuthMethod.api_key, "env:LINEAR_API_KEY", Option.none⟩, st, [])
  else if env.linearClientId ≠ "" ∧ env.linearClientSecret ≠ "" then
    (⟨true, AuthMethod.client_credentials, "env:LINEAR_CLIENT_ID", Option.none⟩, st, [])
  else if st.apiKey.2 = Option.none ∧ st.apiKey.1 ≠ "" then
    (⟨true, AuthMethod.api_key, "keychain", Option.none⟩, st, [Eff.readApiKey])
  else
    match st.tokenInfo with
    | (some t, Option.none) =>
      (⟨true, AuthMethod.client_credentials, "keychain", some t.expiresAt⟩, st,
       [Eff.readApiKey, Eff.readTokenInfo])
    | _ =>
      (⟨false, AuthMethod.none, "", Option.none⟩, st, [Eff.readApiKey, Eff.readTokenInfo])

/-- Test for a token-exchange network request in the effect log. -/
def isExchange : Eff → Bool
  | Eff.exchange _ _ => true
  | _ => false

/-- Test for a SecureStore read in the effect log. -/
def isRead : Eff → Bool
  | Eff.readApiKey => true
  | Eff.readTokenInfo => true
  | Eff.readClientSecret => true
  | Eff.readClientId => true
  | _ => false

/-- Test for a SecureStore write in the effect log. -/
def isWrite : Eff → Bool
  | Eff.setTokenInfo _ => true
  | _ => false

/-- Number of token-exchange requests recorded in a log. -/
def exchangeCount (l : List Eff) : Nat := (l.filter isExchange).length

/-- Number of SecureStore reads recorded in a log. -/
def readCount (l : List Eff) : Nat := (l.filter isRead).length

/-- Number of SecureStore writes recorded in a log. -/
def writeCount (l : List Eff) : Nat := (l.filter isWrite).length

end Auth

namespace Claims

open Auth

/-- C1: whenever the LINEAR_API_KEY environment variable is non-empty,
GetToken returns exactly that value with the api_key method, leaves the
store unchanged, and its effect log is empty: no SecureStore reads and no
token-exchange requests, whatever the stored credentials hold. -/
theorem c1_env_api_key_wins (env : Env) (st : Store) (oracle : Exchange) (now : Int)
    (h : env.linearApiKey ≠ "") :
    GetToken env st oracle now = (Except.ok (env.linearApiKey, AuthMethod.api_key), st, []) := by
  simp [GetToken, h]

/-- C1 witness: a concrete environment with LINEAR_API_KEY set, a stored
static key and a valid stored token; GetToken returns the environment key
with an empty effect log. -/
theorem c1_env_api_key_wins_witness :
    GetToken ⟨"lin_api_abc", "", ""⟩
      ⟨("lin_api_stored", Option.none),
       (some ⟨"tok", "Bearer", 3600, 1000000, ""⟩, Option.none),
       ("sec", Option.none), ("cid", Option.none), false⟩
      (fun _ _ => Except.error "no network") 0
      = (Except.ok ("lin_api_abc", AuthMethod.api_key),
         ⟨("lin_api_stored", Option.none),
          (some ⟨"tok", "Bearer", 3600, 1000000, ""⟩, Option.none),
          ("sec", Option.none), ("cid", Option.none), false⟩, []) :=
  c1_env_api_key_wins _ _ _ 0 (by decide)

/-- Sample environment with none of the three variables set. -/
def envNone : Env := ⟨"", "", ""⟩

/-- Sample oracle for runs where the exchange endpoint always fails. -/
def oracleFail : Exchange := fun _ _ => Except.error "exchange down"

/-- Sample stored token expiring at the given time. -/
def tokAt (exp : Int) : TokenInfo := ⟨"tok", "Bearer", 3600, exp, ""⟩

/-- Sample store with no static key, a stored token expiring at the given
time, and a stored client secret available for refresh. -/
def stTok (exp : Int) : Store :=
  ⟨("", Option.none), (some (tokAt exp), Option.none),
   ("secret", Option.none), ("", Option.none), false⟩

/-- C2: with no environment credentials, no stored static key and a stored
token present, GetToken returns the stored access token with zero exchange
requests exactly when now plus the 5-minute buffer is strictly before the
expiry; and when it is not, with a stored client secret present, exactly
one exchange request is made (a refresh attempt). -/
theorem c2_refresh_buffer (env : Env) (st : Store) (oracle : Exchange) (now : Int)
    (t : TokenInfo)
    (h1 : env.linearApiKey = "")
    (h2 : env.linearClientId = "" ∨ env.linearClientSecret = "")
    (h3 : ¬(st.apiKey.2 = Option.none ∧ st.apiKey.1 ≠ ""))
    (h4 : st.tokenInfo = (some t, Option.none)) :
    ((GetToken env st oracle now).1 = Except.ok (t.accessToken, AuthMethod.client_credentials)
        ∧ exchangeCount (GetToken env st oracle now).2.2 = 0
      ↔ now + TokenExpiryBuffer < t.expiresAt)
    ∧ (¬ now + TokenExpiryBuffer < t.expiresAt →
        st.clientSecret.2 = Option.none → st.clientSecret.1 ≠ "" →
        exchangeCount (GetToken env st oracle now).2.2 = 1) := by
  have h2' : ¬ (env.linearClientId ≠ "" ∧ env.linearClientSecret ≠ "") := by
    rcases h2 with h | h <;> simp [h]
  by_cases hf : now + TokenExpiryBuffer < t.expiresAt
  · simp [GetToken, h1, h2', h3, h4, hf, exchangeCount, isExchange]
  · by_cases hs : st.clientSecret.2 = Option.none ∧ st.clientSecret.1 ≠ ""
    · cases ho : oracle (if st.clientId.1 = "" then DefaultClientID else st.clientId.1)
          st.clientSecret.1 with
      | error e =>
        simp [GetToken, fetchClientCredentialsToken, h1, h2', h3, h4, hf, hs, ho,
          exchangeCount, isExchange]
      | ok r =>
        simp [GetToken, fetchClientCredentialsToken, h1, h2', h3, h4, hf, hs, ho,
          exchangeCount, isExchange]
    · have hs' : ¬ (st.clientSecret.2 = Option.none ∧ st.clientSecret.1 ≠ "") := hs
      simp [GetToken, h1, h2', h3, h4, hf, hs', exchangeCount, isExchange]
      intro ha
      by_contra hc
      exact hs ⟨ha, hc⟩

/-- C2 witness: at now = 0, a token expiring at 301 seconds (5m01s) is
returned with zero exchange requests, and a token expiring at 299 seconds
(4m59s) triggers exactly one exchange request. -/
theorem c2_refresh_buffer_witness :
    (GetToken envNone (stTok 301) oracleFail 0).1
        = Except.ok ("tok", AuthMethod.client_credentials)
      ∧ exchangeCount (GetToken envNone (stTok 301) oracleFail 0).2.2 = 0
      ∧ exchangeCount (GetToken envNone (stTok 299) oracleFail 0).2.2 = 1 := by
  have hA := c2_refresh_buffer envNone (stTok 301) oracleFail 0 (tokAt 301)
    rfl (Or.inl rfl) (by decide) rfl
  have hB := c2_refresh_buffer envNone (stTok 299) oracleFail 0 (tokAt 299)
    rfl (Or.inl rfl) (by decide) rfl
  have hA' := hA.1.mpr (by decide)
  exact ⟨hA'.1, hA'.2, hB.2 (by decide) rfl (by decide)⟩

/-- C4: when LINEAR_API_KEY is empty but both LINEAR_CLIENT_ID and
LINEAR_CLIENT_SECRET are non-empty, GetToken performs exactly one exchange
request and reads nothing from the SecureStore; a failed exchange is
returned as a terminal client-credentials error with the store unchanged
and no stored credential consulted. -/
theorem c4_env_exchange_terminal (env : Env) (st : Store) (oracle : Exchange) (now : Int)
    (h1 : env.linearApiKey = "")
    (h2 : env.linearClientId ≠ "")
    (h3 : env.linearClientSecret ≠ "") :
    readCount (GetToken env st oracle now).2.2 = 0
    ∧ exchangeCount (GetToken env st oracle now).2.2 = 1
    ∧ ∀ e, oracle env.linearClientId env.linearClientSecret = Except.error e →
        GetToken env st oracle now
          = (Except.error (AuthErr.clientCredsFailed e), st,
             [Eff.exchange env.linearClientId env.linearClientSecret]) := by
  cases ho : oracle env.linearClientId env.linearClientSecret with
  | error e =>
    simp [GetToken, fetchClientCredentialsToken, h1, h2, h3, ho,
      readCount, exchangeCount, isRead, isExchange]
  | ok r =>
    simp [GetToken, fetchClientCredentialsToken, h1, h2, h3, ho,
      readCount, exchangeCount, isRead, isExchange]

/-- C4 witness: with env client credentials set and a failing endpoint,
GetToken returns the terminal error having made one exchange request and
zero SecureStore reads, on a store that also holds a valid key and token. -/
theorem c4_env_exchange_terminal_witness :
    readCount (GetToken ⟨"", "cid", "sec"⟩ (stTok 1000000) oracleFail 0).2.2 = 0
    ∧ exchangeCount (GetToken ⟨"", "cid", "sec"⟩ (stTok 1000000) oracleFail 0).2.2 = 1
    ∧ GetToken ⟨"", "cid", "sec"⟩ (stTok 1000000) oracleFail 0
        = (Except.error (AuthErr.clientCredsFailed "exchange down"), stTok 1000000,
           [Eff.exchange "cid" "sec"]) := by
  have h := c4_env_exchange_terminal ⟨"", "cid", "sec"⟩ (stTok 1000000) oracleFail 0
    rfl (by decide) (by decide)
  exact ⟨h.1, h.2.1, h.2.2 "exchange down" rfl⟩

/-- Store in which the stored-static-key lookup fails with a non-not-found
error while a valid stored token is also present. -/
def c3store : Store :=
  ⟨("", some (SErr.other "keyring locked")), (some (tokAt 1000000), Option.none),
   ("", some SErr.notFound), ("", Option.none), false⟩

/-- C3 counterexample: the stored-static-key lookup fails with an error
other than not-found, yet GetToken does not return that error: it silently
falls through and returns the stored token.  This refutes the claim that
every attempted branch that fails returns its error to the caller. -/
theorem c3_counterexample :
    GetToken envNone c3store oracleFail 0
      = (Except.ok ("tok", AuthMethod.client_credentials), c3store,
         [Eff.readApiKey, Eff.readTokenInfo]) := by
  simp [GetToken, envNone, c3store, tokAt, TokenExpiryBuffer]

/-- Result and effect log of a GetToken run: the two components compared
when showing that a failed SecureStore lookup behaves like an absent
secret. -/
def resultLog (o : Except AuthErr (String × AuthMethod) × Store × List Eff) :
    Except AuthErr (String × AuthMethod) × List Eff :=
  (o.1, o.2.2)

/-- Helper: a stored-static-key lookup that fails with any error yields the
same result and effect log as an absent stored static key. -/
lemma apiKey_err_fallthrough (env : Env) (st : Store) (oracle : Exchange) (now : Int)
    (e : SErr) (v : String) :
    resultLog (GetToken env { st with apiKey := (v, some e) } oracle now)
      = resultLog (GetToken env { st with apiKey := ("", Option.none) } oracle now) := by
  by_cases hA : env.linearApiKey ≠ ""
  · simp [GetToken, resultLog, hA]
  · by_cases hB : env.linearClientId ≠ "" ∧ env.linearClientSecret ≠ ""
    · cases ho : oracle env.linearClientId env.linearClientSecret with
      | error e2 => simp [GetToken, fetchClientCredentialsToken, resultLog, hA, hB, ho]
      | ok r => simp [GetToken, fetchClientCredentialsToken, resultLog, hA, hB, ho]
    · rcases hti : st.tokenInfo with ⟨_ | t, _ | oe⟩
      · simp [GetToken, resultLog, hA, hB, hti]
      · simp [GetToken, resultLog, hA, hB, hti]
      · by_cases hf : now + TokenExpiryBuffer < t.expiresAt
        · simp [GetToken, resultLog, hA, hB, hti, hf]
        · by_cases hs : st.clientSecret.2 = Option.none ∧ st.clientSecret.1 ≠ ""
          · cases ho : oracle (if st.clientId.1 = "" then DefaultClientID else st.clientId.1)
                st.clientSecret.1 with
            | error e2 =>
              simp [GetToken, fetchClientCredentialsToken, resultLog, hA, hB, hti, hf, hs, ho]
            | ok r =>
              simp [GetToken, fetchClientCredentialsToken, resultLog, hA, hB, hti, hf, hs, ho]
          · simp [GetToken, resultLog, hA, hB, hti, hf, hs]
      · simp [GetToken, resultLog, hA, hB, hti]

/-- Helper: a stored-token lookup that fails with any error yields the same
result and effect log as an absent stored token. -/
lemma tokenInfo_err_fallthrough (env : Env) (st : Store) (oracle : Exchange) (now : Int)
    (e : SErr) (v : Option TokenInfo) :
    resultLog (GetToken env { st with tokenInfo := (v, some e) } oracle now)
      = resultLog (GetToken env { st with tokenInfo := (Option.none, Option.none) } oracle now) := by
  by_cases hA : env.linearApiKey ≠ ""
  · simp [GetToken, resultLog, hA]
  · by_cases hB : env.linearClientId ≠ "" ∧ env.linearClientSecret ≠ ""
    · cases ho : oracle env.linearClientId env.linearClientSecret with
      | error e2 => simp [GetToken, fetchClientCredentialsToken, resultLog, hA, hB, ho]
      | ok r => simp [GetToken, fetchClientCredentialsToken, resultLog, hA, hB, ho]
    · by_cases hK : st.apiKey.2 = Option.none ∧ st.apiKey.1 ≠ ""
      · simp [GetToken, resultLog, hA, hB, hK]
      · cases v with
        | none => simp [GetToken, resultLog, hA, hB, hK]
        | some t => simp [GetToken, resultLog, hA, hB, hK]

/-- Helper: a stored-client-secret lookup that fails with any error yields
the same result and effect log as an absent stored client secret. -/
lemma clientSecret_err_fallthrough (env : Env) (st : Store) (oracle : Exchange) (now : Int)
    (e : SErr) (v : String) :
    resultLog (GetToken env { st with clientSecret := (v, some e) } oracle now)
      = resultLog (GetToken env { st with clientSecret := ("", Option.none) } oracle now) := by
  by_cases hA : env.linearApiKey ≠ ""
  · simp [GetToken, resultLog, hA]
  · by_cases hB : env.linearClientId ≠ "" ∧ env.linearClientSecret ≠ ""
    · cases ho : oracle env.linearClientId env.linearClientSecret with
      | error e2 => simp [GetToken, fetchClientCredentialsToken, resultLog, hA, hB, ho]
      | ok r => simp [GetToken, fetchClientCredentialsToken, resultLog, hA, hB, ho]
    · by_cases hK : st.apiKey.2 = Option.none ∧ st.apiKey.1 ≠ ""
      · simp [GetToken, resultLog, hA, hB, hK]
      · rcases hti : st.tokenInfo with ⟨_ | t, _ | oe⟩
        · simp [GetToken, resultLog, hA, hB, hK, hti]
        · simp [GetToken, resultLog, hA, hB, hK, hti]
        · by_cases hf : now + TokenExpiryBuffer < t.expiresAt
          · simp [GetToken, resultLog, hA, hB, hK, hti, hf]
          · simp [GetToken, resultLog, hA, hB, hK, hti, hf]
        · simp [GetToken, resultLog, hA, hB, hK, hti]

/-- C3 amended: the attempted branches that return their failure terminally
are exactly the two network-exchange branches (environment client
credentials, and refresh of a stored token); a SecureStore lookup that
fails with any error, not-found or otherwise, is instead treated as
credential absence, and resolution falls through with the same result and
effect log as if the secret were absent. -/
theorem c3_attempted_branch_errors (env : Env) (st : Store) (oracle : Exchange) (now : Int) :
    (∀ e, env.linearApiKey = "" → env.linearClientId ≠ "" → env.linearClientSecret ≠ "" →
       oracle env.linearClientId env.linearClientSecret = Except.error e →
       (GetToken env st oracle now).1 = Except.error (AuthErr.clientCredsFailed e))
    ∧ (∀ t e, env.linearApiKey = "" →
        (env.linearClientId = "" ∨ env.linearClientSecret = "") →
        ¬(st.apiKey.2 = Option.none ∧ st.apiKey.1 ≠ "") →
        st.tokenInfo = (some t, Option.none) →
        ¬ now + TokenExpiryBuffer < t.expiresAt →
        st.clientSecret.2 = Option.none → st.clientSecret.1 ≠ "" →
        oracle (if st.clientId.1 = "" then DefaultClientID else st.clientId.1)
            st.clientSecret.1 = Except.error e →
        (GetToken env st oracle now).1 = Except.error (AuthErr.refreshFailed e))
    ∧ (∀ e v, resultLog (GetToken env { st with apiKey := (v, some e) } oracle now)
        = resultLog (GetToken env { st with apiKey := ("", Option.none) } oracle now))
    ∧ (∀ e v, resultLog (GetToken env { st with tokenInfo := (v, some e) } oracle now)
        = resultLog (GetToken env { st with tokenInfo := (Option.none, Option.none) } oracle now))
    ∧ (∀ e v, resultLog (GetToken env { st with clientSecret := (v, some e) } oracle now)
        = resultLog (GetToken env { st with clientSecret := ("", Option.none) } oracle now)) := by
  refine ⟨?_, ?_, ?_, ?_, ?_⟩
  · intro e h1 h2 h3 ho
    simp [GetToken, fetchClientCredentialsToken, h1, h2, h3, ho]
  · intro t e h1 h2 h3 h4 hf hs1 hs2 ho
    have h2' : ¬ (env.linearClientId ≠ "" ∧ env.linearClientSecret ≠ "") := by
      rcases h2 with h | h <;> simp [h]
    simp [GetToken, fetchClientCredentialsToken, h1, h2', h3, h4, hf, hs1, hs2, ho]
  · intro e v
    exact apiKey_err_fallthrough env st oracle now e v
  · intro e v
    exact tokenInfo_err_fallthrough env st oracle now e v
  · intro e v
    exact clientSecret_err_fallthrough env st oracle now e v

/-- C3 amended witness: on concrete inputs, a failed key lookup gives the
same result and log as an absent key, and a failed environment exchange is
returned terminally. -/
theorem c3_attempted_branch_errors_witness :
    resultLog (GetToken envNone
        { stTok 1000000 with apiKey := ("x", some (SErr.other "keyring locked")) } oracleFail 0)
      = resultLog (GetToken envNone
        { stTok 1000000 with apiKey := ("", Option.none) } oracleFail 0)
    ∧ (GetToken ⟨"", "cid", "sec"⟩ (stTok 0) oracleFail 0).1
        = Except.error (AuthErr.clientCredsFailed "exchange down") := by
  have h1 := (c3_attempted_branch_errors envNone (stTok 1000000) oracleFail 0).2.2.1
    (SErr.other "keyring locked") "x"
  have h2 := (c3_attempted_branch_errors ⟨"", "cid", "sec"⟩ (stTok 0) oracleFail 0).1
    "exchange down" rfl (by decide) (by decide) rfl
  exact ⟨h1, h2⟩

/-- C9: GetStatus returns the SecureStore unchanged, performs zero exchange
requests and zero SecureStore writes, and reports its source following the
same priority order as GetToken: environment static key, then environment
exchange credentials, then stored static key, then stored token. -/
theorem c9_status_pure (env : Env) (st : Store) :
    (GetStatus env st).2.1 = st
    ∧ exchangeCount (GetStatus env st).2.2 = 0
    ∧ writeCount (GetStatus env st).2.2 = 0
    ∧ (env.linearApiKey ≠ "" →
        (GetStatus env st).1 = ⟨true, AuthMethod.api_key, "env:LINEAR_API_KEY", Option.none⟩)
    ∧ (env.linearApiKey = "" → env.linearClientId ≠ "" → env.linearClientSecret ≠ "" →
        (GetStatus env st).1
          = ⟨true, AuthMethod.client_credentials, "env:LINEAR_CLIENT_ID", Option.none⟩)
    ∧ (env.linearApiKey = "" → ¬(env.linearClientId ≠ "" ∧ env.linearClientSecret ≠ "") →
        st.apiKey.2 = Option.none → st.apiKey.1 ≠ "" →
        (GetStatus env st).1 = ⟨true, AuthMethod.api_key, "keychain", Option.none⟩)
    ∧ (∀ t, env.linearApiKey = "" → ¬(env.linearClientId ≠ "" ∧ env.linearClientSecret ≠ "") →
        ¬(st.apiKey.2 = Option.none ∧ st.apiKey.1 ≠ "") →
        st.tokenInfo = (some t, Option.none) →
        (GetStatus env st).1
          = ⟨true, AuthMethod.client_credentials, "keychain", some t.expiresAt⟩) := by
  refine ⟨?_, ?_, ?_, ?_, ?_, ?_, ?_⟩
  · by_cases hA : env.linearApiKey ≠ ""
    · simp [GetStatus, hA]
    · by_cases hB : env.linearClientId ≠ "" ∧ env.linearClientSecret ≠ ""
      · simp [GetStatus, hA, hB]
      · by_cases hK : st.apiKey.2 = Option.none ∧ st.apiKey.1 ≠ ""
        · simp [GetStatus, hA, hB, hK]
        · rcases hti : st.tokenInfo with ⟨_ | t, _ | oe⟩
          · simp [GetStatus, hA, hB, hK, hti]
          · simp [GetStatus, hA, hB, hK, hti]
          · simp [GetStatus, hA, hB, hK, hti]
          · simp [GetStatus, hA, hB, hK, hti]
  · by_cases hA : env.linearApiKey ≠ ""
    · simp [GetStatus, hA, exchangeCount, isExchange]
    · by_cases hB : env.linearClientId ≠ "" ∧ env.linearClientSecret ≠ ""
      · simp [GetStatus, hA, hB, exchangeCount, isExchange]
      · by_cases hK : st.apiKey.2 = Option.none ∧ st.apiKey.1 ≠ ""
        · simp [GetStatus, hA, hB, hK, exchangeCount, isExchange]
        · rcases hti : st.tokenInfo with ⟨_ | t, _ | oe⟩
          · simp [GetStatus, hA, hB, hK, hti, exchangeCount, isExchange]
          · simp [GetStatus, hA, hB, hK, hti, exchangeCount, isExchange]
          · simp [GetStatus, hA, hB, hK, hti, exchangeCount, isExchange]
          · simp [GetStatus, hA, hB, hK, hti, exchangeCount, isExchange]
  · by_cases hA : env.linearApiKey ≠ ""
    · simp [GetStatus, hA, writeCount, isWrite]
    · by_cases hB : env.linearClientId ≠ "" ∧ env.linearClientSecret ≠ ""
      · simp [GetStatus, hA, hB, writeCount, isWrite]
      · by_cases hK : st.apiKey.2 = Option.none ∧ st.apiKey.1 ≠ ""
        · simp [GetStatus, hA, hB, hK, writeCount, isWrite]
        · rcases hti : st.tokenInfo with ⟨_ | t, _ | oe⟩
          · simp [GetStatus, hA, hB, hK, hti, writeCount, isWrite]
          · simp [GetStatus, hA, hB, hK, hti, writeCount, isWrite]
          · simp [GetStatus, hA, hB, hK, hti, writeCount, isWrite]
          · simp [GetStatus, hA, hB, hK, hti, writeCount, isWrite]
  · intro hA
    simp [GetStatus, hA]
  · intro h1 h2 h3
    simp [GetStatus, h1, h2, h3]
  · intro h1 h2 h3 h4
    simp [GetStatus, h1, h2, h3, h4]
  · intro t h1 h2 h3 h4
    simp [GetStatus, h1, h2, h3, h4]

/-- C9 witness: on a concrete environment and store with only a stored
token, GetStatus leaves the store unchanged, logs no exchange and no write,
and reports the keychain token source. -/
theorem c9_status_pure_witness :
    (GetStatus envNone (stTok 7)).2.1 = stTok 7
    ∧ exchangeCount (GetStatus envNone (stTok 7)).2.2 = 0
    ∧ writeCount (GetStatus envNone (stTok 7)).2.2 = 0
    ∧ (GetStatus envNone (stTok 7)).1
        = ⟨true, AuthMethod.client_credentials, "keychain", some 7⟩ := by
  have h := c9_status_pure envNone (stTok 7)
  exact ⟨h.1, h.2.1, h.2.2.1,
    h.2.2.2.2.2.2 (tokAt 7) rfl (by decide) (by decide) rfl⟩

/-- C10: GetStatus reports authenticated with method client_credentials and
source keychain for any retrievable stored token, whatever its expiry
(there is no now parameter in this branch at all); the expiry is merely
reported in the status. -/
theorem c10_status_ignores_expiry (env : Env) (st : Store) (t : TokenInfo)
    (h1 : env.linearApiKey = "")
    (h2 : env.linearClientId = "" ∨ env.linearClientSecret = "")
    (h3 : ¬(st.apiKey.2 = Option.none ∧ st.apiKey.1 ≠ ""))
    (h4 : st.tokenInfo = (some t, Option.none)) :
    (GetStatus env st).1
      = ⟨true, AuthMethod.client_credentials, "keychain", some t.expiresAt⟩ := by
  have h2' : ¬ (env.linearClientId ≠ "" ∧ env.linearClientSecret ≠ "") := by
    rcases h2 with h | h <;> simp [h]
  simp [GetStatus, h1, h2', h3, h4]

/-- C10 witness: a stored token that expired long ago (negative expiry,
with no stored client secret to refresh it) is still reported as
authenticated from the keychain, with its expiry included. -/
theorem c10_status_ignores_expiry_witness :
    (GetStatus envNone
        ⟨("", Option.none), (some (tokAt (-1000)), Option.none),
         ("", some SErr.notFound), ("", Option.none), false⟩).1
      = ⟨true, AuthMethod.client_credentials, "keychain", some (-1000)⟩ :=
  c10_status_ignores_expiry envNone
    ⟨("", Option.none), (some (tokAt (-1000)), Option.none),
     ("", some SErr.notFound), ("", Option.none), false⟩
    (tokAt (-1000)) rfl (Or.inl rfl) (by decide) rfl

end Claims

namespace Cache

/-- DefaultTTL is 24 hours, in seconds. -/
def DefaultTTL : Int := 24 * 60 * 60

/-- Entry mirrors the Go generic struct: cached data plus write time. -/
structure Entry (T : Type) where
  data : T
  timestamp : Int
deriving DecidableEq, Repr

/-- Manager mirrors the Go struct: cache directory and TTL (NewManager
always sets ttl to DefaultTTL). -/
structure Manager where
  dir : String
  ttl : Int
deriving DecidableEq, Repr

/-- What os.ReadFile followed by json.Unmarshal can encounter at one path:
no file (the not-exist error), a file whose read fails with another error
such as permission denied, a file whose bytes fail to deserialize, or a
well-formed serialized entry. -/
inductive FileState (T : Type)
  | absent
  | unreadable (e : String)
  | corrupt
  | stored (entry : Entry T)
deriving DecidableEq, Repr

/-- The cache directory contents, as a map from file path to file state,
plus a flag making writes fail (covering MkdirAll, MarshalIndent and
WriteFile failures). -/
structure CacheFS (T : Type) where
  files : String → FileState T
  writeFails : Bool

/-- keyPath from cache.go: dir plus key plus the .json extension. -/
def keyPath (m : Manager) (key : String) : String :=
  m.dir ++ "/" ++ key ++ ".json"

/-- Read, translated from cache.go lines 69-94: miss on missing file, other
read errors propagate, miss on deserialization failure, and an entry older
than the TTL is deleted and reported as a miss.  The current time is passed
where the Go code calls time.Since. -/
def Read (T : Type) (m : Manager) (fs : CacheFS T) (now : Int) (key : String) :
    Except String (Option T) × CacheFS T :=
  match fs.files (keyPath m key) with
  | FileState.absent => (Except.ok Option.none, fs)
  | FileState.unreadable e => (Except.error e, fs)
  | FileState.corrupt => (Except.ok Option.none, fs)
  | FileState.stored entry =>
    if now - entry.timestamp > m.ttl then
      (Except.ok Option.none,
       { fs with files := fun p => if p = keyPath m key then FileState.absent else fs.files p })
    else
      (Except.ok (some entry.data), fs)

/-- Write, translated from cache.go lines 97-113: ensure the directory,
serialize the entry stamped with the current time, and persist it; any
failure is returned and leaves the file system unchanged. -/
def Write (T : Type) (m : Manager) (fs : CacheFS T) (now : Int) (key : String) (v : T) :
    Except String Unit × CacheFS T :=
  if fs.writeFails then (Except.error "write failed", fs)
  else
    (Except.ok (),
     { fs with files := fun p =>
        if p = keyPath m key then FileState.stored ⟨v, now⟩ else fs.files p })

/-- GetOrFetch, translated from cache.go lines 150-171; the fetch function
is represented by its outcome, and the Nat counts how many times it was
invoked. -/
def GetOrFetch (T : Type) (m : Manager) (fs : CacheFS T) (now : Int) (key : String)
    (fetch : Except String T) : Except String T × CacheFS T × Nat :=
  match Read T m fs now key with
  | (Except.error e, fs1) => (Except.error e, fs1, 0)
  | (Except.ok (some v), fs1) => (Except.ok v, fs1, 0)
  | (Except.ok Option.none, fs1) =>
    match fetch with
    | Except.error e => (Except.error e, fs1, 1)
    | Except.ok v => (Except.ok v, (Write T m fs1 now key v).2, 1)

/-- TeamKey from cache.go line 176. -/
def TeamKey (resource teamID : String) : String :=
  resource ++ "-team-" ++ teamID

/-- WorkspaceKey from cache.go line 181. -/
def WorkspaceKey (resource : String) : String :=
  resource ++ "-workspace"

end Cache

namespace Claims

open Cache

/-- C5: GetOrFetch returns the cached value with zero fetch invocations on
a Read hit; on a miss it invokes fetch exactly once, and then either
propagates the fetch error writing nothing, or returns the fetched value
after attempting the cache write (whose failure is swallowed). -/
theorem c5_get_or_fetch (T : Type) (m : Cache.Manager) (fs : CacheFS T) (now : Int)
    (key : String) (fetch : Except String T) :
    (∀ v fs1, Cache.Read T m fs now key = (Except.ok (some v), fs1) →
       GetOrFetch T m fs now key fetch = (Except.ok v, fs1, 0))
    ∧ (∀ fs1, Cache.Read T m fs now key = (Except.ok Option.none, fs1) →
        (∀ e, fetch = Except.error e →
           GetOrFetch T m fs now key fetch = (Except.error e, fs1, 1))
        ∧ (∀ v, fetch = Except.ok v →
           GetOrFetch T m fs now key fetch
             = (Except.ok v, (Cache.Write T m fs1 now key v).2, 1))) := by
  constructor
  · intro v fs1 hr
    simp [GetOrFetch, hr]
  · intro fs1 hr
    constructor
    · intro e hf
      simp [GetOrFetch, hr, hf]
    · intro v hf
      simp [GetOrFetch, hr, hf]

/-- Sample cache manager used by the cache witnesses. -/
def mW : Cache.Manager := ⟨"/home/u/.cache/agent-linear-cli", DefaultTTL⟩

/-- Sample cache directory holding one well-formed users entry written at
time 100. -/
def fsW : CacheFS Nat :=
  ⟨fun p => if p = keyPath mW "users-workspace" then FileState.stored ⟨5, 100⟩
            else FileState.absent, false⟩

/-- C5 witness: at a concrete hit the cached value is returned with zero
fetch invocations, and at a concrete miss the fetched value is returned
after one invocation and a cache write. -/
theorem c5_get_or_fetch_witness :
    GetOrFetch Nat mW fsW 100 "users-workspace" (Except.ok 9)
      = (Except.ok 5, fsW, 0)
    ∧ GetOrFetch Nat mW fsW 100 "labels-workspace" (Except.ok 9)
      = (Except.ok 9, (Cache.Write Nat mW fsW 100 "labels-workspace" 9).2, 1) := by
  have h1 := (c5_get_or_fetch Nat mW fsW 100 "users-workspace" (Except.ok 9)).1 5 fsW
  have h2 := (c5_get_or_fetch Nat mW fsW 100 "labels-workspace" (Except.ok 9)).2 fsW
  refine ⟨h1 ?_, (h2 ?_).2 9 rfl⟩
  · simp [Cache.Read, fsW, mW, keyPath, DefaultTTL]
  · simp [Cache.Read, fsW, mW, keyPath]

/-- C6: Read returns a miss with no error on a missing file and on a
corrupt file; a stored entry strictly older than the TTL is reported as a
miss and its file deleted; a stored entry within the TTL is returned; and
a read error other than not-exist is propagated as an error. -/
theorem c6_read_semantics (T : Type) (m : Cache.Manager) (fs : CacheFS T) (now : Int)
    (key : String) :
    (fs.files (keyPath m key) = FileState.absent →
       Cache.Read T m fs now key = (Except.ok Option.none, fs))
    ∧ (fs.files (keyPath m key) = FileState.corrupt →
       Cache.Read T m fs now key = (Except.ok Option.none, fs))
    ∧ (∀ e, fs.files (keyPath m key) = FileState.unreadable e →
       Cache.Read T m fs now key = (Except.error e, fs))
    ∧ (∀ entry, fs.files (keyPath m key) = FileState.stored entry →
        (now - entry.timestamp > m.ttl →
          (Cache.Read T m fs now key).1 = Except.ok Option.none
          ∧ (Cache.Read T m fs now key).2.files (keyPath m key) = FileState.absent)
        ∧ (¬ now - entry.timestamp > m.ttl →
          Cache.Read T m fs now key = (Except.ok (some entry.data), fs))) := by
  refine ⟨?_, ?_, ?_, ?_⟩
  · intro h
    simp [Cache.Read, h]
  · intro h
    simp [Cache.Read, h]
  · intro e h
    simp [Cache.Read, h]
  · intro entry h
    constructor
    · intro hexp
      simp [Cache.Read, h, hexp]
    · intro hfresh
      simp [Cache.Read, h, hfresh]

/-- C6 witness: concrete runs exercising the miss, corrupt, error and
stale branches. -/
theorem c6_read_semantics_witness :
    Cache.Read Nat mW fsW 100 "labels-workspace" = (Except.ok Option.none, fsW)
    ∧ (Cache.Read Nat mW fsW (100 + DefaultTTL + 1) "users-workspace").1
        = Except.ok Option.none
    ∧ (Cache.Read Nat mW fsW (100 + DefaultTTL + 1) "users-workspace").2.files
        (keyPath mW "users-workspace") = FileState.absent
    ∧ Cache.Read Nat mW fsW 100 "users-workspace" = (Except.ok (some 5), fsW) := by
  have h1 := (c6_read_semantics Nat mW fsW 100 "labels-workspace").1
  have h4 := (c6_read_semantics Nat mW fsW (100 + DefaultTTL + 1) "users-workspace").2.2.2
    ⟨5, 100⟩
  have h5 := (c6_read_semantics Nat mW fsW 100 "users-workspace").2.2.2 ⟨5, 100⟩
  have hstored : fsW.files (keyPath mW "users-workspace") = FileState.stored ⟨5, 100⟩ := by
    simp [fsW]
  have habsent : fsW.files (keyPath mW "labels-workspace") = FileState.absent := by
    simp [fsW, mW, keyPath]
  have hexp : (100 + DefaultTTL + 1 : Int) - 100 > mW.ttl := by
    simp [mW, DefaultTTL]
  have hfresh : ¬ ((100 : Int) - 100 > mW.ttl) := by
    simp [mW, DefaultTTL]
  exact ⟨h1 habsent, ((h4 hstored).1 hexp).1, ((h4 hstored).1 hexp).2,
    (h5 hstored).2 hfresh⟩

/-- C7: writing then immediately reading the same key returns the written
value with the file system unchanged; reading at any time strictly more
than the TTL after the write returns a miss and deletes the backing file;
and a stored entry is returned exactly when its age is at most the TTL, so
an entry exactly TTL old is still returned. -/
theorem c7_ttl_round_trip (T : Type) (m : Cache.Manager) (fs : CacheFS T) (now : Int)
    (key : String) (v : T)
    (httl : m.ttl = DefaultTTL)
    (hw : fs.writeFails = false) :
    Cache.Read T m (Cache.Write T m fs now key v).2 now key
      = (Except.ok (some v), (Cache.Write T m fs now key v).2)
    ∧ (∀ later, later - now > m.ttl →
        (Cache.Read T m (Cache.Write T m fs now key v).2 later key).1 = Except.ok Option.none
        ∧ (Cache.Read T m (Cache.Write T m fs now key v).2 later key).2.files (keyPath m key)
            = FileState.absent)
    ∧ (∀ entry, fs.files (keyPath m key) = FileState.stored entry →
        ((Cache.Read T m fs now key).1 = Except.ok (some entry.data)
          ↔ now - entry.timestamp ≤ m.ttl)) := by
  refine ⟨?_, ?_, ?_⟩
  · have h0 : (0 : Int) ≤ m.ttl := by
      rw [httl]
      decide
    simp [Cache.Read, Cache.Write, hw, h0]
  · intro later hlate
    simp [Cache.Read, Cache.Write, hw, hlate]
  · intro entry h
    constructor
    · intro hr
      by_contra hgt
      have hexp : now - entry.timestamp > m.ttl := by omega
      simp [Cache.Read, h, hexp] at hr
    · intro hle
      have hfresh : ¬ (now - entry.timestamp > m.ttl) := by omega
      simp [Cache.Read, h, hfresh]

/-- C7 witness: at the concrete store, an immediate read-back returns the
written value, a read one second past the TTL misses and deletes the file,
and the entry exactly TTL old is still returned. -/
theorem c7_ttl_round_trip_witness :
    Cache.Read Nat mW (Cache.Write Nat mW fsW 200 "teams-workspace" 8).2 200 "teams-workspace"
      = (Except.ok (some 8), (Cache.Write Nat mW fsW 200 "teams-workspace" 8).2)
    ∧ (Cache.Read Nat mW (Cache.Write Nat mW fsW 200 "teams-workspace" 8).2
        (200 + DefaultTTL + 1) "teams-workspace").1 = Except.ok Option.none
    ∧ ((Cache.Read Nat mW fsW (100 + DefaultTTL) "users-workspace").1
        = Except.ok (some 5) ↔ (100 + DefaultTTL : Int) - 100 ≤ mW.ttl) := by
  have h := c7_ttl_round_trip Nat mW fsW 200 "teams-workspace" 8 rfl rfl
  have h2 := c7_ttl_round_trip Nat mW fsW (100 + DefaultTTL) "users-workspace" 5 rfl rfl
  refine ⟨h.1, (h.2.1 (200 + DefaultTTL + 1) ?_).1, h2.2.2 ⟨5, 100⟩ ?_⟩
  · simp [mW, DefaultTTL]
  · simp [fsW]

/-- C8 counterexample: the two key constructors do collide across scopes:
the team id "workspace" under resource "x" produces the same key as the
workspace scope under resource "x-team". -/
theorem c8_counterexample :
    TeamKey "x" "workspace" = WorkspaceKey "x-team" := rfl

/-- Helper: characterization of cross-scope key collisions at the level of
character lists: a collision forces the team id to be exactly "workspace"
or to end in "-workspace". -/
lemma team_workspace_collision (r1 r2 t : List Char)
    (h : r1 ++ (['-','t','e','a','m','-'] ++ t)
       = r2 ++ ['-','w','o','r','k','s','p','a','c','e']) :
    t = ['w','o','r','k','s','p','a','c','e']
    ∨ ['-','w','o','r','k','s','p','a','c','e'] <:+ t := by
  rcases List.append_eq_append_iff.mp h with ⟨k, hk1, hk2⟩ | ⟨k, hk1, hk2⟩
  · rcases k with _ | ⟨a, _ | ⟨b, _ | ⟨c, _ | ⟨d, _ | ⟨e, _ | ⟨f, k⟩⟩⟩⟩⟩⟩
    · simp at hk2
    · simp at hk2
    · simp at hk2
    · simp at hk2
    · simp at hk2
    · simp at hk2
      exact Or.inl hk2.2.2.2.2.2
    · simp at hk2
      exact Or.inr ⟨k, hk2.2.2.2.2.2.2.symm⟩
  · rcases k with _ | ⟨a, _ | ⟨b, _ | ⟨c, _ | ⟨d, _ | ⟨e, k⟩⟩⟩⟩⟩
    · simp at hk2
    · simp at hk2
    · simp at hk2
    · simp at hk2
    · simp at hk2
    · have hlen := congrArg List.length hk2
      simp at hlen
      omega

/-- C8 amended: key construction is deterministic (the constructors are
functions), and cross-scope keys are distinct whenever the team id is not
itself "workspace" and does not end in "-workspace"; without that proviso
the two scopes can collide, as the counterexample shows. -/
theorem c8_keys_no_cross_scope_collision (r1 r2 t : String)
    (h1 : t ≠ "workspace")
    (h2 : ¬ ("-workspace" : String).data <:+ t.data) :
    TeamKey r1 t ≠ WorkspaceKey r2 := by
  intro he
  have hd : r1.data ++ (("-team-" : String).data ++ t.data)
      = r2.data ++ ("-workspace" : String).data := by
    have hdata := congrArg String.data he
    simpa [TeamKey, WorkspaceKey, List.append_assoc] using hdata
  have hdt : ("-team-" : String).data = ['-','t','e','a','m','-'] := rfl
  have hdw : ("-workspace" : String).data = ['-','w','o','r','k','s','p','a','c','e'] := rfl
  rw [hdt, hdw] at hd
  rcases team_workspace_collision r1.data r2.data t.data hd with hc | hc
  · exact h1 (String.ext hc)
  · rw [hdw] at h2
    exact h2 hc

/-- C8 amended witness: the keys for resource "users" with team id "ENG"
and for resource "users" at workspace scope are distinct. -/
theorem c8_keys_no_cross_scope_collision_witness :
    TeamKey "users" "ENG" ≠ WorkspaceKey "users" :=
  c8_keys_no_cross_scope_collision "users" "users" "ENG" (by decide) (by decide)

end Claims
